import Mathlib

/-!
Verification development for the Smokeball receipt automation script
(src/backend/smokeball_receipt_automation.py). The stateful browser
automation is shallowly embedded: each Playwright query that can succeed,
fail, or raise is abstracted as a boolean oracle on an abstract page state,
and each controller method becomes a pure function from those oracles to a
trace of performed UI actions together with a result
(normal return or raised exception).
-/

/-- Events, errors and results are threaded through a small trace monad:
a computation takes the list of events performed so far and returns the
extended list together with either a normal result or a raised error
(mirroring Python exception propagation: statements sequenced after a
raise are never executed). -/
def Proc (ε ω α : Type) : Type := List ω → List ω × Except ε α

def ret {ε ω α : Type} (a : α) : Proc ε ω α := fun tr => (tr, Except.ok a)

def bnd {ε ω α β : Type} (m : Proc ε ω α) (k : α → Proc ε ω β) : Proc ε ω β :=
  fun tr =>
    match m tr with
    | (tr2, Except.ok a) => k a tr2
    | (tr2, Except.error e) => (tr2, Except.error e)

def record {ε ω : Type} (e : ω) : Proc ε ω Unit := fun tr => (tr ++ [e], Except.ok ())

def raiseErr {ε ω α : Type} (e : ε) : Proc ε ω α := fun tr => (tr, Except.error e)

/-- Errors raised by the automation (Python raises generic Exception; the
constructors keep the distinguishing payloads of each raise site). -/
inductive AutomationError : Type
  | elementNotFound (target : String) (strategiesTried : Nat)
  | submissionFailed
  | loginFailed
  | twoFactorFailed
  deriving DecidableEq

/-- Target description named by the raise at line 353 of
smokeball_receipt_automation.py: Could not find the Deposit Funds button. -/
def depositFundsTarget : String := "Deposit Funds"

/-- Abstract state of the transactions page, as seen by the seven
deposit-button locator strategies of fill_receipt_form (lines 237-349).
Each field records whether the corresponding Playwright query yields a
visible, clickable match. -/
structure DepositPage : Type where
  createNewVisible : Bool
  menuDepositRaises : Bool
  menuDepositVisible : Bool
  menuItemsHaveDeposit : Bool
  exactMatchVisible : Bool
  looseMatchVisible : Bool
  filterMatchVisible : Bool
  enumMatchVisible : Bool
  ariaMatchVisible : Bool
  dataAttrMatchVisible : Bool
  deriving DecidableEq

/-- Outcome of the nested menu lookup inside strategy 1 (lines 246-268):
if the menuitem query raises, the loop over all menu items is tried;
otherwise the visibility answer of the menuitem decides. -/
def menuYieldsDeposit (p : DepositPage) : Bool :=
  if p.menuDepositRaises then p.menuItemsHaveDeposit else p.menuDepositVisible

/-- Whether strategy i (1-indexed, in the declared order of lines 237-349)
yields a clickable deposit control. -/
def strategySucceeds (p : DepositPage) : Nat → Bool
  | 1 => p.createNewVisible && menuYieldsDeposit p
  | 2 => p.exactMatchVisible
  | 3 => p.looseMatchVisible
  | 4 => p.filterMatchVisible
  | 5 => p.enumMatchVisible
  | 6 => p.ariaMatchVisible
  | 7 => p.dataAttrMatchVisible
  | _ => false

/-- Abstract state of the deposit-entry form, as seen by the per-field
locator attempts of fill_receipt_form (lines 355-529): for each field,
whether the label-proximity method works and whether the fallback
selector works, plus whether the final commit button click succeeds. -/
structure FieldPage : Type where
  dateLabelWorks : Bool
  dateAltWorks : Bool
  receivedFromLabelWorks : Bool
  receivedFromAltWorks : Bool
  reasonLabelWorks : Bool
  reasonAltWorks : Bool
  amountLabelWorks : Bool
  amountAltWorks : Bool
  processClickWorks : Bool
  deriving DecidableEq

/-- Receipt data passed to fill_receipt_form (built in main, lines 594-602). -/
structure ReceiptData : Type where
  date : String
  lastname : String
  firstname : String
  reason : String
  amount : String
  deriving DecidableEq

def commaSpace : String := ", "

/-- Payer name in the format built at line 380 of the source. -/
def contactName (rd : ReceiptData) : String := rd.lastname ++ commaSpace ++ rd.firstname

/-- UI actions performed by fill_receipt_form, in performance order. -/
inductive FillEvent : Type
  | attemptedStrategy (i : Nat)
  | clickedCreateNew
  | clickedDeposit (i : Nat)
  | filledDate (value : String)
  | skippedDate
  | filledReceivedFrom (value : String)
  | skippedReceivedFrom
  | filledReason (value : String)
  | skippedReason
  | filledAmount (value : String)
  | skippedAmount
  | heldForInspection
  | clickedProcessReceipt
  deriving DecidableEq

/-- Events produced only by the statements of lines 355-529 (field fill,
test-mode hold, submit), i.e. by the code that follows the unconditional
raise at line 353. -/
def phaseTwoEvent : FillEvent → Bool
  | FillEvent.filledDate _ => true
  | FillEvent.skippedDate => true
  | FillEvent.filledReceivedFrom _ => true
  | FillEvent.skippedReceivedFrom => true
  | FillEvent.filledReason _ => true
  | FillEvent.skippedReason => true
  | FillEvent.filledAmount _ => true
  | FillEvent.skippedAmount => true
  | FillEvent.heldForInspection => true
  | FillEvent.clickedProcessReceipt => true
  | _ => false

/-- Date fill, lines 355-376: label method, then the first-text-input
fallback; each failure is caught and only printed. Never raises. -/
def fillDateStep (fp : FieldPage) (rd : ReceiptData) : Proc AutomationError FillEvent Unit :=
  if fp.dateLabelWorks then record (FillEvent.filledDate rd.date)
  else if fp.dateAltWorks then record (FillEvent.filledDate rd.date)
  else record FillEvent.skippedDate

/-- Received From fill, lines 378-427: label method (typing the
Lastname, Firstname string), then the direct combobox fallback; each
failure is caught and only printed. Never raises. -/
def fillReceivedFromStep (fp : FieldPage) (rd : ReceiptData) : Proc AutomationError FillEvent Unit :=
  if fp.receivedFromLabelWorks then record (FillEvent.filledReceivedFrom (contactName rd))
  else if fp.receivedFromAltWorks then record (FillEvent.filledReceivedFrom (contactName rd))
  else record FillEvent.skippedReceivedFrom

/-- Reason fill, lines 429-457: only attempted when a reason was provided;
label method, then the placeholder-scan fallback. Never raises. -/
def fillReasonStep (fp : FieldPage) (rd : ReceiptData) : Proc AutomationError FillEvent Unit :=
  if rd.reason.isEmpty then ret ()
  else if fp.reasonLabelWorks then record (FillEvent.filledReason rd.reason)
  else if fp.reasonAltWorks then record (FillEvent.filledReason rd.reason)
  else record FillEvent.skippedReason

/-- Amount fill, lines 459-483: Allocated Matters label method, then the
last-spinbutton fallback. Never raises. -/
def fillAmountStep (fp : FieldPage) (rd : ReceiptData) : Proc AutomationError FillEvent Unit :=
  if fp.amountLabelWorks then record (FillEvent.filledAmount rd.amount)
  else if fp.amountAltWorks then record (FillEvent.filledAmount rd.amount)
  else record FillEvent.skippedAmount

/-- Terminal branch, lines 497-529: test mode holds the browser open for
inspection; otherwise the Process-Open Receipt button is clicked, and a
click failure is re-raised. -/
def submitStep (fp : FieldPage) (testMode : Bool) : Proc AutomationError FillEvent Unit :=
  if testMode then record FillEvent.heldForInspection
  else if fp.processClickWorks then record FillEvent.clickedProcessReceipt
  else raiseErr AutomationError.submissionFailed

/-- Statements of lines 355-529 in source order: the four field fills
followed by the test-mode or submit branch. -/
def fillFieldsAndSubmit (fp : FieldPage) (rd : ReceiptData) (testMode : Bool) :
    Proc AutomationError FillEvent Unit :=
  bnd (fillDateStep fp rd) fun _ =>
  bnd (fillReceivedFromStep fp rd) fun _ =>
  bnd (fillReasonStep fp rd) fun _ =>
  bnd (fillAmountStep fp rd) fun _ =>
  submitStep fp testMode

/-- Strategies 2 to 7 of the deposit-button cascade (lines 272-349),
followed by the raise of line 353 and then, in source order, the
statements of lines 355-529. Each strategy that finds a visible match
clicks it and returns from the whole method immediately. -/
def depositStrategies2to7 (p : DepositPage) (fp : FieldPage) (rd : ReceiptData)
    (testMode : Bool) : Proc AutomationError FillEvent Unit :=
  bnd (record (FillEvent.attemptedStrategy 2)) fun _ =>
  if strategySucceeds p 2 then record (FillEvent.clickedDeposit 2) else
  bnd (record (FillEvent.attemptedStrategy 3)) fun _ =>
  if strategySucceeds p 3 then record (FillEvent.clickedDeposit 3) else
  bnd (record (FillEvent.attemptedStrategy 4)) fun _ =>
  if strategySucceeds p 4 then record (FillEvent.clickedDeposit 4) else
  bnd (record (FillEvent.attemptedStrategy 5)) fun _ =>
  if strategySucceeds p 5 then record (FillEvent.clickedDeposit 5) else
  bnd (record (FillEvent.attemptedStrategy 6)) fun _ =>
  if strategySucceeds p 6 then record (FillEvent.clickedDeposit 6) else
  bnd (record (FillEvent.attemptedStrategy 7)) fun _ =>
  if strategySucceeds p 7 then record (FillEvent.clickedDeposit 7) else
  bnd (raiseErr (AutomationError.elementNotFound depositFundsTarget 7) :
        Proc AutomationError FillEvent Unit) fun _ =>
  fillFieldsAndSubmit fp rd testMode

/-- Shallow embedding of SmokeBallReceiptAutomation.fill_receipt_form
(lines 226-529). Strategy 1 (lines 237-270) first tries the Create New
menu path; every successful deposit click is followed by a return from
the whole method, and if all seven strategies fail the method raises at
line 353; the statements of lines 355-529 follow that raise. -/
def fill_receipt_form (p : DepositPage) (fp : FieldPage) (rd : ReceiptData)
    (testMode : Bool) : Proc AutomationError FillEvent Unit :=
  bnd (record (FillEvent.attemptedStrategy 1)) fun _ =>
  if p.createNewVisible then
    bnd (record FillEvent.clickedCreateNew) fun _ =>
    if menuYieldsDeposit p then record (FillEvent.clickedDeposit 1)
    else depositStrategies2to7 p fp rd testMode
  else depositStrategies2to7 p fp rd testMode

/-- Index of the first strategy that succeeds, in declared order. -/
def firstSuccess (p : DepositPage) : Option Nat :=
  if strategySucceeds p 1 then some 1
  else if strategySucceeds p 2 then some 2
  else if strategySucceeds p 3 then some 3
  else if strategySucceeds p 4 then some 4
  else if strategySucceeds p 5 then some 5
  else if strategySucceeds p 6 then some 6
  else if strategySucceeds p 7 then some 7
  else none

/-- Events recorded while attempting strategy i: the attempt itself, plus
the Create New click that strategy 1 performs when that button is visible. -/
def strategyAttemptEvents (p : DepositPage) (i : Nat) : List FillEvent :=
  if i = 1 then
    if p.createNewVisible then
      [FillEvent.attemptedStrategy 1, FillEvent.clickedCreateNew]
    else [FillEvent.attemptedStrategy 1]
  else [FillEvent.attemptedStrategy i]

/-- Concatenated attempt events of strategies 1 to k. -/
def attemptsThrough (p : DepositPage) (k : Nat) : List FillEvent :=
  ((List.range k).map fun i => strategyAttemptEvents p (i + 1)).flatten

/-- Closed-form description of a run of fill_receipt_form from the empty
trace: the attempts up to the first success followed by the deposit click,
or all seven attempts followed by the line-353 raise. -/
def expectedFill (p : DepositPage) : List FillEvent × Except AutomationError Unit :=
  match firstSuccess p with
  | some k => (attemptsThrough p k ++ [FillEvent.clickedDeposit k], Except.ok ())
  | none => (attemptsThrough p 7,
      Except.error (AutomationError.elementNotFound depositFundsTarget 7))

/-- Truncate to a 32-bit word. -/
def m32 (n : Nat) : Nat := n % 4294967296

/-- Rotate a 32-bit word left by b bits (input below 2 to the 32). -/
def rotl32 (n b : Nat) : Nat := (n % 2 ^ (32 - b)) * 2 ^ b + n / 2 ^ (32 - b)

/-- Big-endian byte expansion of n with the given width. -/
def toBytesBE : Nat → Nat → List Nat
  | 0, _ => []
  | k + 1, n => toBytesBE k (n / 256) ++ [n % 256]

/-- Value of one base32 character (RFC 4648 alphabet, case-insensitive as
accepted by the decoder pyotp calls). -/
def base32CharValue (c : Char) : Option Nat :=
  if 'A' ≤ c ∧ c ≤ 'Z' then some (c.toNat - 65)
  else if 'a' ≤ c ∧ c ≤ 'z' then some (c.toNat - 97)
  else if '2' ≤ c ∧ c ≤ '7' then some (c.toNat - 50 + 26)
  else none

/-- Modelled from the spec: validity of a TOTP secret. The pyotp library
that decides this is not part of the repository; per the spec a secret must
be a non-empty base32 string, so validity is a non-empty RFC 4648 base32
body whose length residue admits a padded decoding. -/
def isValidBase32 (s : String) : Bool :=
  !s.isEmpty && s.data.all (fun c => (base32CharValue c).isSome)
    && (s.length % 8 != 1 && s.length % 8 != 3 && s.length % 8 != 6)

/-- All base32 character values of s packed into one number, 5 bits each. -/
def base32Bits (s : String) : Nat :=
  s.data.foldl (fun acc c => acc * 32 + ((base32CharValue c).getD 0)) 0

/-- Modelled from the spec: base32 decoding of a TOTP secret into key
bytes, as performed inside the external pyotp library. -/
def base32Decode (s : String) : Option (List Nat) :=
  if isValidBase32 s then
    some (toBytesBE (5 * s.length / 8) (base32Bits s / 2 ^ (5 * s.length % 8)))
  else none

/-- Group a byte list into big-endian 32-bit words. -/
def bytesToWords : List Nat → List Nat
  | b0 :: b1 :: b2 :: b3 :: rest =>
      (((b0 * 256 + b1) * 256 + b2) * 256 + b3) :: bytesToWords rest
  | _ => []

/-- SHA-1 message padding: one 128 byte, zeros to 56 mod 64, then the
bit length as 8 big-endian bytes. -/
def sha1Pad (msg : List Nat) : List Nat :=
  msg ++ [128] ++ List.replicate ((119 - msg.length % 64) % 64) 0
    ++ toBytesBE 8 (8 * msg.length)

/-- One step of the SHA-1 message-schedule extension. -/
def sha1ExtendStep (w : List Nat) : List Nat :=
  w ++ [rotl32 ((((w.getD (w.length - 3) 0) ^^^ (w.getD (w.length - 8) 0)) ^^^
        (w.getD (w.length - 14) 0)) ^^^ (w.getD (w.length - 16) 0)) 1]

/-- SHA-1 working state. -/
structure Sha1State : Type where
  a : Nat
  b : Nat
  c : Nat
  d : Nat
  e : Nat
  deriving DecidableEq

/-- SHA-1 round function per round group. -/
def sha1F (t b c d : Nat) : Nat :=
  if t < 20 then (b &&& c) ||| ((4294967295 - b) &&& d)
  else if t < 40 then (b ^^^ c) ^^^ d
  else if t < 60 then ((b &&& c) ||| (b &&& d)) ||| (c &&& d)
  else (b ^^^ c) ^^^ d

/-- SHA-1 round constants per round group. -/
def sha1K (t : Nat) : Nat :=
  if t < 20 then 1518500249
  else if t < 40 then 1859775393
  else if t < 60 then 2400959708
  else 3395469782

/-- One SHA-1 compression round. -/
def sha1Round (w : List Nat) (st : Sha1State) (t : Nat) : Sha1State :=
  let temp := m32 (rotl32 st.a 5 + sha1F t st.b st.c st.d + st.e + sha1K t + w.getD t 0)
  ⟨temp, st.a, rotl32 st.b 30, st.c, st.d⟩

/-- Process one 64-byte chunk. -/
def sha1Chunk (h : Sha1State) (chunk : List Nat) : Sha1State :=
  let w := Nat.repeat sha1ExtendStep 64 (bytesToWords chunk)
  let st := (List.range 80).foldl (sha1Round w) h
  ⟨m32 (h.a + st.a), m32 (h.b + st.b), m32 (h.c + st.c), m32 (h.d + st.d), m32 (h.e + st.e)⟩

/-- Split a byte list into 64-byte chunks, with a fuel argument bounding
the recursion by the list length. -/
def chunks64Go : Nat → List Nat → List (List Nat)
  | 0, _ => []
  | _, [] => []
  | fuel + 1, l => l.take 64 :: chunks64Go fuel (l.drop 64)

def chunks64 (l : List Nat) : List (List Nat) := chunks64Go l.length l

def sha1InitState : Sha1State := ⟨1732584193, 4023233417, 2562383102, 271733878, 3285377520⟩

/-- SHA-1 digest (20 bytes) of a byte list. -/
def sha1 (msg : List Nat) : List Nat :=
  let fin := (chunks64 (sha1Pad msg)).foldl sha1Chunk sha1InitState
  toBytesBE 4 fin.a ++ toBytesBE 4 fin.b ++ toBytesBE 4 fin.c ++ toBytesBE 4 fin.d
    ++ toBytesBE 4 fin.e

/-- HMAC-SHA1 with a 64-byte block size. -/
def hmacSha1 (key msg : List Nat) : List Nat :=
  let k0 := if key.length > 64 then sha1 key else key
  let kpad := k0 ++ List.replicate (64 - k0.length) 0
  sha1 ((kpad.map fun b => b ^^^ 92) ++ sha1 ((kpad.map fun b => b ^^^ 54) ++ msg))

/-- RFC 4226 dynamic truncation of a 20-byte digest. -/
def dynamicTruncate (digest : List Nat) : Nat :=
  let offset := (digest.getD 19 0) % 16
  ((digest.getD offset 0) % 128) * 16777216 + (digest.getD (offset + 1) 0) * 65536
    + (digest.getD (offset + 2) 0) * 256 + digest.getD (offset + 3) 0

/-- Modelled from the spec: the standard HOTP value (truncated HMAC-SHA1 of
the big-endian counter, reduced to 6 decimal digits), as computed by the
external pyotp library named at line 63 of the source. -/
def hotp (key : List Nat) (counter : Nat) : Nat :=
  dynamicTruncate (hmacSha1 key (toBytesBE 8 counter)) % 1000000

def digitChar (d : Nat) : Char := Char.ofNat (48 + d)

/-- Zero-padded 6-digit decimal rendering of a value below one million. -/
def sixDigitString (n : Nat) : String :=
  ⟨[digitChar (n / 100000 % 10), digitChar (n / 10000 % 10), digitChar (n / 1000 % 10),
    digitChar (n / 100 % 10), digitChar (n / 10 % 10), digitChar (n % 10)]⟩

/-- Failures of generate_totp_code: the guard of lines 60-61 raises
ValueError when no secret is configured (or pyotp is missing), and the
external base32 decode raises on a malformed secret. -/
inductive TotpFailure : Type
  | secretNotConfigured
  | invalidBase32
  deriving DecidableEq

/-- Shallow embedding of SmokeBallReceiptAutomation.generate_totp_code
(lines 58-66). The guard is translated from the source; the TOTP
computation behind pyotp.TOTP(secret).now() is modelled from the spec
(RFC 6238: 30-second window, 6 digits, HMAC-SHA1), with the current time
t passed explicitly in seconds. The function is pure: no network or I/O
effect is modelled because none exists in this computation. -/
def generate_totp_code (secret : Option String) (pyotpAvailable : Bool) (t : Nat) :
    Except TotpFailure String :=
  match secret with
  | none => Except.error TotpFailure.secretNotConfigured
  | some s =>
    if s.isEmpty || !pyotpAvailable then Except.error TotpFailure.secretNotConfigured
    else
      match base32Decode s with
      | none => Except.error TotpFailure.invalidBase32
      | some key => Except.ok (sixDigitString (hotp key (t / 30)))

/-- Environment key-value source: the three SMOKEBALL_USERNAME,
SMOKEBALL_PASSWORD and SMOKEBALL_2FA_SECRET keys read at lines 50-54. -/
structure Env : Type where
  smokeballUsername : Option String
  smokeballPassword : Option String
  smokeball2faSecret : Option String
  deriving DecidableEq

/-- Hardcoded fallback username at line 51 of the source. -/
def defaultUsername : String := "pmanocha@stanford.au"

/-- Hardcoded fallback password at line 52 of the source. -/
def defaultPassword : String := "LegalxManocha25!"

/-- Credentials dictionary built in SmokeBallReceiptAutomation.__init__. -/
structure Credentials : Type where
  username : String
  password : String
  two_factor_secret : Option String
  deriving DecidableEq

/-- Shallow embedding of the credential loading of __init__ (lines 50-54):
os.getenv with a hardcoded default for username and password, and no
default for the 2FA secret. The constructor is total: no configuration
check exists in the source. -/
def loadCredentials (env : Env) : Credentials :=
  { username := env.smokeballUsername.getD defaultUsername
  , password := env.smokeballPassword.getD defaultPassword
  , two_factor_secret := env.smokeball2faSecret }

/-- Truthiness test of line 166 combined with pyotp availability: the
automatic TOTP path is taken only for a non-empty configured secret with
pyotp importable. -/
def usableSecret (secret : Option String) (pyotpAvailable : Bool) : Bool :=
  match secret with
  | some s => !s.isEmpty && pyotpAvailable
  | none => false

/-- Abstract browser state seen by login (lines 107-191). -/
structure LoginPage : Type where
  credentialFormWorks : Bool
  dashboardAfterLogin : Bool
  twoFactorFieldAppears : Bool
  verifySucceeds : Bool
  deriving DecidableEq

/-- Observable actions of the login method. -/
inductive LoginEvent : Type
  | filledUsername (u : String)
  | filledPassword
  | clickedLogin
  | enteredTwoFactorFlow
  | generatedTotp (code : String)
  | promptedManualCode
  | filledTwoFactorCode
  | verified
  deriving DecidableEq

/-- Shallow embedding of SmokeBallReceiptAutomation.login (lines 107-191).
The email, password and login-button locator fallbacks of lines 115-150
are folded into credentialFormWorks; if the post-login URL does not
contain dashboard, the two-factor branch of lines 157-186 runs: with a
usable secret the code is generated (a generation failure is caught at
line 184 and converted to a 2FA failure), otherwise the controller blocks
on interactive input for a manually entered code. -/
def login (creds : Credentials) (pyotpAvailable : Bool) (pg : LoginPage) (t : Nat) :
    Proc AutomationError LoginEvent Unit :=
  if !pg.credentialFormWorks then raiseErr AutomationError.loginFailed
  else
  bnd (record (LoginEvent.filledUsername creds.username)) fun _ =>
  bnd (record LoginEvent.filledPassword) fun _ =>
  bnd (record LoginEvent.clickedLogin) fun _ =>
  if pg.dashboardAfterLogin then ret ()
  else
  bnd (record LoginEvent.enteredTwoFactorFlow) fun _ =>
  if !pg.twoFactorFieldAppears then raiseErr AutomationError.twoFactorFailed
  else
  bnd (if usableSecret creds.two_factor_secret pyotpAvailable then
         match generate_totp_code creds.two_factor_secret pyotpAvailable t with
         | Except.ok code => record (LoginEvent.generatedTotp code)
         | Except.error _ =>
             raiseErr (AutomationError.twoFactorFailed) (α := Unit) (ω := LoginEvent)
       else record LoginEvent.promptedManualCode) fun _ =>
  bnd (record LoginEvent.filledTwoFactorCode) fun _ =>
  if pg.verifySucceeds then record LoginEvent.verified
  else raiseErr AutomationError.twoFactorFailed

/-- Result dictionary returned by run (lines 548-560). -/
structure Summary : Type where
  success : Bool
  message : String
  error : Option String
  deriving DecidableEq

def msgFilledOk : String := "Receipt form filled successfully"

def msgCreatedOk : String := "Receipt created successfully"

def msgFillFailed : String := "Failed to fill receipt form"

def msgCreateFailed : String := "Failed to create receipt"

def initFailureMsg : String := "Browser failed to start"

def loginFailureMsg : String := "Login failed"

def navigateFailureMsg : String := "Navigation to matter transactions failed"

def depositNotFoundMsg : String :=
  "Could not find \"Deposit Funds\" button after trying all strategies"

def submitFailedMsg : String := "Failed to submit receipt"

def twoFactorFailedMsg : String := "2FA failed"

/-- Message text carried by a raised error into str(e) at line 558. -/
def errorMessage : AutomationError → String
  | AutomationError.elementNotFound _ _ => depositNotFoundMsg
  | AutomationError.submissionFailed => submitFailedMsg
  | AutomationError.loginFailed => loginFailureMsg
  | AutomationError.twoFactorFailed => twoFactorFailedMsg

/-- Await points of run at which a user interrupt (KeyboardInterrupt, which
the except-Exception handler of line 553 does not catch) can arrive.
beforeBrowserLaunch is inside initialize before the browser is assigned;
duringFinallySleep is the 5-second pre-cleanup sleep that the finally
block performs when not in test mode (lines 562-563). -/
inductive InterruptPoint : Type
  | beforeBrowserLaunch
  | duringInit
  | duringLogin
  | duringNavigate
  | duringFill
  | duringFinallySleep
  deriving DecidableEq

/-- One configured execution of run (lines 537-564): which stages succeed,
the abstract page states that drive fill_receipt_form, and at most one
user interrupt at one await point. -/
structure RunSetup : Type where
  launchOk : Bool
  initOk : Bool
  loginOk : Bool
  navigateOk : Bool
  page : DepositPage
  fields : FieldPage
  data : ReceiptData
  interrupt : Option InterruptPoint
  deriving DecidableEq

/-- Whether the await carrying the configured interrupt is ever reached,
given which stages succeed: an interrupt during a stage fires only if the
preceding stages completed, and the finally sleep exists only when not in
test mode. -/
def interruptReached (sc : RunSetup) (testMode : Bool) : InterruptPoint → Bool
  | InterruptPoint.beforeBrowserLaunch => true
  | InterruptPoint.duringInit => sc.launchOk
  | InterruptPoint.duringLogin => sc.launchOk && sc.initOk
  | InterruptPoint.duringNavigate => sc.launchOk && sc.initOk && sc.loginOk
  | InterruptPoint.duringFill => sc.launchOk && sc.initOk && sc.loginOk && sc.navigateOk
  | InterruptPoint.duringFinallySleep => !testMode

/-- The interrupt that actually fires in this run, if any. -/
def effectiveInterrupt (sc : RunSetup) (testMode : Bool) : Option InterruptPoint :=
  match sc.interrupt with
  | some ip => if interruptReached sc testMode ip then some ip else none
  | none => none

/-- Shallow embedding of SmokeBallReceiptAutomation.cleanup (lines
531-535): the browser is closed exactly when it was acquired. The result
counts browser.close() calls. -/
def cleanupCloseCount (browserPresent : Bool) : Nat :=
  if browserPresent then 1 else 0

/-- First stage failure of the try body of run, in stage order, with the
message that reaches str(e); fill_receipt_form is evaluated on the
configured page states. -/
def stageFailure (sc : RunSetup) (testMode : Bool) : Option String :=
  if !sc.launchOk || !sc.initOk then some initFailureMsg
  else if !sc.loginOk then some loginFailureMsg
  else if !sc.navigateOk then some navigateFailureMsg
  else
    match (fill_receipt_form sc.page sc.fields sc.data testMode []).2 with
    | Except.ok _ => none
    | Except.error e => some (errorMessage e)

/-- Summary dictionary produced by run (lines 548-560): success with no
error field, or failure with the stringified exception in the error
field; the message depends on test mode. -/
def runSummary (sc : RunSetup) (testMode : Bool) : Summary :=
  match stageFailure sc testMode with
  | none => ⟨true, if testMode then msgFilledOk else msgCreatedOk, none⟩
  | some m => ⟨false, if testMode then msgFillFailed else msgCreateFailed, some m⟩

/-- How a run ends: with a returned summary dictionary, or by a
KeyboardInterrupt propagating out of run. -/
inductive RunTermination : Type
  | completed (s : Summary)
  | interrupted
  deriving DecidableEq

/-- Observable outcome of run (lines 537-564): its termination, whether the
browser was ever acquired, and how many times browser.close() ran. -/
structure RunOutcome : Type where
  termination : RunTermination
  acquired : Bool
  closeCount : Nat
  deriving DecidableEq

/-- Shallow embedding of SmokeBallReceiptAutomation.run (lines 537-564).
The try body runs the four stages; except-Exception converts a stage
failure into a failure summary; the finally block sleeps 5 seconds when
not in test mode and then calls cleanup. A KeyboardInterrupt in the try
body skips the except handler but still runs the whole finally block; a
KeyboardInterrupt during the finally sleep aborts the finally block
before cleanup is called, so the browser is not closed. -/
def runAutomation (sc : RunSetup) (testMode : Bool) : RunOutcome :=
  match effectiveInterrupt sc testMode with
  | none => ⟨RunTermination.completed (runSummary sc testMode), sc.launchOk,
      cleanupCloseCount sc.launchOk⟩
  | some InterruptPoint.duringFinallySleep => ⟨RunTermination.interrupted, sc.launchOk, 0⟩
  | some InterruptPoint.beforeBrowserLaunch => ⟨RunTermination.interrupted, false,
      cleanupCloseCount false⟩
  | some _ => ⟨RunTermination.interrupted, sc.launchOk, cleanupCloseCount sc.launchOk⟩

/-- Last console output of the process: the Final Result line of line 615,
or the interruption notice of line 623. -/
inductive ProcessOutput : Type
  | finalResult (s : Summary)
  | interruptNotice
  deriving DecidableEq

/-- Observable end of the whole process. -/
structure ProcessRun : Type where
  lastOutput : ProcessOutput
  exitCode : Nat
  deriving DecidableEq

/-- Shallow embedding of main plus the module entry point (lines 567-629):
when run returns a summary, it is printed as the final output and the
process exits 0 exactly on success (line 616); a KeyboardInterrupt
reaching the top level prints the interruption notice and exits 1
(lines 622-624). -/
def mainProcess (sc : RunSetup) (testMode : Bool) : ProcessRun :=
  match (runAutomation sc testMode).termination with
  | RunTermination.completed s => ⟨ProcessOutput.finalResult s, if s.success then 0 else 1⟩
  | RunTermination.interrupted => ⟨ProcessOutput.interruptNotice, 1⟩

/-- Transactions page on which every deposit-button strategy fails. -/
def pageAllFail : DepositPage :=
  ⟨false, false, false, false, false, false, false, false, false, false⟩

/-- Transactions page whose exact-name Deposit Funds button (strategy 2)
is the only visible match. -/
def pageExactOnly : DepositPage :=
  ⟨false, false, false, false, true, false, false, false, false, false⟩

/-- Transactions page on which strategy 3 (case-insensitive name match)
is the first to succeed. -/
def pageLooseOnly : DepositPage :=
  ⟨false, false, false, false, false, true, false, false, false, false⟩

/-- Deposit-entry form on which every field locator works. -/
def fieldsAllWork : FieldPage := ⟨true, true, true, true, true, true, true, true, true⟩

/-- The documented example receipt data (module docstring and CLI defaults). -/
def sampleReceipt : ReceiptData :=
  ⟨"21/11/2025", "Stanford", "Logan", "On account of test search fees", "81.7"⟩

/-- A valid 16-character base32 secret. -/
def sampleSecret : String := "JBSWY3DPEHPK3PXP"

/-- A malformed (non-base32) secret. -/
def badSecret : String := "not-base32!"

/-- Environment providing none of the three credential keys. -/
def emptyEnv : Env := ⟨none, none, none⟩

/-- Login page that goes straight to the dashboard (no 2FA). -/
def loginPageDirect : LoginPage := ⟨true, true, true, true⟩

/-- Login page that requires two-factor authentication. -/
def twoFactorPage : LoginPage := ⟨true, false, true, true⟩

/-- Credentials with no TOTP secret configured. -/
def noSecretCreds : Credentials := ⟨defaultUsername, defaultPassword, none⟩

/-- Run in which every stage succeeds and no interrupt arrives. -/
def setupAllOk : RunSetup :=
  ⟨true, true, true, true, pageExactOnly, fieldsAllWork, sampleReceipt, none⟩

/-- Run in which every stage succeeds and the user interrupt arrives during
the 5-second pre-cleanup sleep of the finally block. -/
def setupLeak : RunSetup :=
  ⟨true, true, true, true, pageExactOnly, fieldsAllWork, sampleReceipt,
   some InterruptPoint.duringFinallySleep⟩

/-- Every run of fill_receipt_form from the empty trace produces exactly
the closed-form description expectedFill. -/
theorem fill_run_eq (p : DepositPage) (fp : FieldPage) (rd : ReceiptData) (tm : Bool) :
    fill_receipt_form p fp rd tm [] = expectedFill p := by
  obtain ⟨c, mr, mv, mi, e2, e3, e4, e5, e6, e7⟩ := p
  cases c <;> cases mr <;> cases mv <;> cases mi <;> cases e2 <;> cases e3 <;> cases e4 <;>
    cases e5 <;> cases e6 <;> cases e7 <;> rfl

theorem attemptsThrough_succ (p : DepositPage) (k : Nat) :
    attemptsThrough p (k + 1) = attemptsThrough p k ++ strategyAttemptEvents p (k + 1) := by
  simp [attemptsThrough, List.range_succ]

theorem mem_strategyAttemptEvents (p : DepositPage) (i : Nat) (e : FillEvent)
    (he : e ∈ strategyAttemptEvents p i) :
    e = FillEvent.attemptedStrategy i ∨ e = FillEvent.clickedCreateNew := by
  unfold strategyAttemptEvents at he
  split at he
  next hi =>
    subst hi
    split at he <;> simp at he <;> tauto
  next hi =>
    simp at he
    tauto

theorem attempted_mem_attemptsThrough (p : DepositPage) (k j : Nat) :
    FillEvent.attemptedStrategy j ∈ attemptsThrough p k ↔ 1 ≤ j ∧ j ≤ k := by
  induction k with
  | zero =>
    simp only [attemptsThrough, List.range_zero, List.map_nil, List.flatten_nil,
      List.not_mem_nil, false_iff]
    omega
  | succ n ih =>
    rw [attemptsThrough_succ, List.mem_append, ih]
    unfold strategyAttemptEvents
    by_cases h1 : n + 1 = 1
    · have hn : n = 0 := by omega
      subst hn
      cases hc : p.createNewVisible <;> simp <;> omega
    · simp only [if_neg h1, List.mem_singleton, FillEvent.attemptedStrategy.injEq]
      omega

theorem attempts_phaseTwo_false (p : DepositPage) (k : Nat) (e : FillEvent)
    (he : e ∈ attemptsThrough p k) : phaseTwoEvent e = false := by
  induction k with
  | zero => simp [attemptsThrough] at he
  | succ n ih =>
    rw [attemptsThrough_succ, List.mem_append] at he
    rcases he with he | he
    · exact ih he
    · rcases mem_strategyAttemptEvents p (n + 1) e he with h | h <;> subst h <;> rfl

theorem firstSuccess_eq (p : DepositPage) (k : Nat) (hk1 : 1 ≤ k) (hk7 : k ≤ 7)
    (hs : strategySucceeds p k = true)
    (hmin : ∀ j, 1 ≤ j → j < k → strategySucceeds p j = false) :
    firstSuccess p = some k := by
  have h1 := fun h => hmin 1 (by omega) h
  have h2 := fun h => hmin 2 (by omega) h
  have h3 := fun h => hmin 3 (by omega) h
  have h4 := fun h => hmin 4 (by omega) h
  have h5 := fun h => hmin 5 (by omega) h
  have h6 := fun h => hmin 6 (by omega) h
  interval_cases k
  · simp [firstSuccess, hs]
  · simp [firstSuccess, h1 (by omega), hs]
  · simp [firstSuccess, h1 (by omega), h2 (by omega), hs]
  · simp [firstSuccess, h1 (by omega), h2 (by omega), h3 (by omega), hs]
  · simp [firstSuccess, h1 (by omega), h2 (by omega), h3 (by omega), h4 (by omega), hs]
  · simp [firstSuccess, h1 (by omega), h2 (by omega), h3 (by omega), h4 (by omega),
      h5 (by omega), hs]
  · simp [firstSuccess, h1 (by omega), h2 (by omega), h3 (by omega), h4 (by omega),
      h5 (by omega), h6 (by omega), hs]

theorem firstSuccess_none (p : DepositPage)
    (hall : ∀ i, 1 ≤ i → i ≤ 7 → strategySucceeds p i = false) :
    firstSuccess p = none := by
  simp [firstSuccess, hall 1 (by omega) (by omega), hall 2 (by omega) (by omega),
    hall 3 (by omega) (by omega), hall 4 (by omega) (by omega),
    hall 5 (by omega) (by omega), hall 6 (by omega) (by omega),
    hall 7 (by omega) (by omega)]

theorem sixDigitString_length (n : Nat) : (sixDigitString n).length = 6 := rfl

theorem digitChar_isDigit (d : Nat) (hd : d < 10) : (digitChar d).isDigit = true := by
  interval_cases d <;> decide

theorem sixDigitString_digits (n : Nat) : (sixDigitString n).data.all Char.isDigit = true := by
  have h : ∀ m : Nat, (digitChar (m % 10)).isDigit = true :=
    fun m => digitChar_isDigit _ (Nat.mod_lt _ (by norm_num))
  simp [sixDigitString, h]

/-- Claim C2: every execution of fill_receipt_form either raises the
element-not-found error after all seven deposit-button strategies fail, or
returns immediately after the first successful click of the deposit
control; consequently the field fills, the test-mode hold and the submit
click that follow the unconditional raise never execute: no phase-two
event ever appears in any trace. -/
theorem fill_receipt_form_click_or_raise (p : DepositPage) (fp : FieldPage)
    (rd : ReceiptData) (tm : Bool) :
    ((∃ k, fill_receipt_form p fp rd tm [] =
        (attemptsThrough p k ++ [FillEvent.clickedDeposit k], Except.ok ())) ∨
      (fill_receipt_form p fp rd tm []).2 =
        Except.error (AutomationError.elementNotFound depositFundsTarget 7)) ∧
    ∀ e ∈ (fill_receipt_form p fp rd tm []).1, phaseTwoEvent e = false := by
  rw [fill_run_eq]
  unfold expectedFill
  cases hfs : firstSuccess p with
  | some k =>
    refine ⟨Or.inl ⟨k, rfl⟩, ?_⟩
    intro e he
    simp only [List.mem_append, List.mem_singleton] at he
    rcases he with he | he
    · exact attempts_phaseTwo_false p k e he
    · subst he; rfl
  | none =>
    refine ⟨Or.inr rfl, ?_⟩
    intro e he
    exact attempts_phaseTwo_false p 7 e he

/-- Claim C2 witness at a concrete page: the first event of the concrete
run is a strategy attempt, which is not a phase-two statement. -/
theorem fill_receipt_form_click_or_raise_witness :
    phaseTwoEvent (FillEvent.attemptedStrategy 1) = false :=
  (fill_receipt_form_click_or_raise pageExactOnly fieldsAllWork sampleReceipt true).2
    (FillEvent.attemptedStrategy 1) (by decide)

/-- Claim C1 (code bug evidence): on a transactions page whose exact-name
Deposit Funds button is visible and a form on which every field locator
works, fill_receipt_form returns right after clicking the deposit control:
its trace contains no date, payer, reason or amount fill action, because
the early returns of the strategy cascade (and the unconditional raise
after it) make the field-filling statements of lines 355-529 unreachable,
contrary to the docstring Fill out the receipt form. -/
theorem fill_receipt_form_no_fields_filled_bug :
    fill_receipt_form pageExactOnly fieldsAllWork sampleReceipt true [] =
      ([FillEvent.attemptedStrategy 1, FillEvent.attemptedStrategy 2,
        FillEvent.clickedDeposit 2], Except.ok ()) ∧
    (fill_receipt_form pageExactOnly fieldsAllWork sampleReceipt true []).1.all
      (fun e => !phaseTwoEvent e) = true :=
  ⟨rfl, rfl⟩

/-- Claim C6: in the deposit-button locator chain (seven strategies in
declared order), if strategy k is the first to yield a visible match then
strategies 1..k are each attempted in declared order, the control is
clicked via strategy k, and strategies k+1..7 are never evaluated. -/
theorem locator_chain_first_success_short_circuits (p : DepositPage) (fp : FieldPage)
    (rd : ReceiptData) (tm : Bool) (k : Nat) (hk1 : 1 ≤ k) (hk7 : k ≤ 7)
    (hs : strategySucceeds p k = true)
    (hmin : ∀ j, 1 ≤ j → j < k → strategySucceeds p j = false) :
    fill_receipt_form p fp rd tm [] =
      (attemptsThrough p k ++ [FillEvent.clickedDeposit k], Except.ok ()) ∧
    (∀ j, 1 ≤ j → j ≤ k →
      FillEvent.attemptedStrategy j ∈ (fill_receipt_form p fp rd tm []).1) ∧
    ∀ j, k < j → FillEvent.attemptedStrategy j ∉ (fill_receipt_form p fp rd tm []).1 := by
  have hfs := firstSuccess_eq p k hk1 hk7 hs hmin
  have heq : fill_receipt_form p fp rd tm [] =
      (attemptsThrough p k ++ [FillEvent.clickedDeposit k], Except.ok ()) := by
    rw [fill_run_eq]
    unfold expectedFill
    rw [hfs]
  refine ⟨heq, ?_, ?_⟩
  · intro j hj1 hjk
    rw [heq]
    simp only [List.mem_append, List.mem_singleton]
    exact Or.inl ((attempted_mem_attemptsThrough p k j).2 ⟨hj1, hjk⟩)
  · intro j hj
    rw [heq]
    simp only [List.mem_append, List.mem_singleton]
    rintro (hin | hin)
    · have := (attempted_mem_attemptsThrough p k j).1 hin
      omega
    · exact FillEvent.noConfusion hin

/-- Claim C6 witness: with strategy 3 the first to succeed, strategies 1,
2, 3 are attempted and the deposit control is clicked via strategy 3. -/
theorem locator_chain_first_success_short_circuits_witness :
    fill_receipt_form pageLooseOnly fieldsAllWork sampleReceipt true [] =
      (attemptsThrough pageLooseOnly 3 ++ [FillEvent.clickedDeposit 3], Except.ok ()) :=
  (locator_chain_first_success_short_circuits pageLooseOnly fieldsAllWork sampleReceipt true 3
    (by decide) (by decide) (by decide)
    (by intro j hj1 hj3; interval_cases j <;> decide)).1

/-- Claim C7: if all seven strategies exhaust without a match, the chain
fails with an error naming the Deposit Funds target and the seven
strategies tried, and this failure propagates out of fill_receipt_form
(fatal); an element failure on an individual form field, by contrast, is
only logged and skipped: none of the four field-fill steps can raise,
whatever works or fails on the page. -/
theorem locator_chain_exhaustion_fatal_fields_soft (p : DepositPage) (fp : FieldPage)
    (rd : ReceiptData) (tm : Bool) :
    ((∀ i, 1 ≤ i → i ≤ 7 → strategySucceeds p i = false) →
       fill_receipt_form p fp rd tm [] =
         (attemptsThrough p 7,
          Except.error (AutomationError.elementNotFound depositFundsTarget 7))) ∧
    (∀ tr, (fillDateStep fp rd tr).2 = Except.ok () ∧
           (fillReceivedFromStep fp rd tr).2 = Except.ok () ∧
           (fillReasonStep fp rd tr).2 = Except.ok () ∧
           (fillAmountStep fp rd tr).2 = Except.ok ()) := by
  constructor
  · intro hall
    rw [fill_run_eq]
    unfold expectedFill
    rw [firstSuccess_none p hall]
  · intro tr
    refine ⟨?_, ?_, ?_, ?_⟩
    · unfold fillDateStep
      split
      · rfl
      · split <;> rfl
    · unfold fillReceivedFromStep
      split
      · rfl
      · split <;> rfl
    · unfold fillReasonStep
      split
      · rfl
      · split
        · rfl
        · split <;> rfl
    · unfold fillAmountStep
      split
      · rfl
      · split <;> rfl

/-- Claim C7 witness: concrete exhaustion run and concrete field steps. -/
theorem locator_chain_exhaustion_fatal_fields_soft_witness :
    fill_receipt_form pageAllFail fieldsAllWork sampleReceipt true [] =
      (attemptsThrough pageAllFail 7,
       Except.error (AutomationError.elementNotFound depositFundsTarget 7)) ∧
    (fillDateStep fieldsAllWork sampleReceipt []).2 = Except.ok () :=
  ⟨(locator_chain_exhaustion_fatal_fields_soft pageAllFail fieldsAllWork sampleReceipt true).1
      (by intro i hi1 hi7; interval_cases i <;> decide),
   ((locator_chain_exhaustion_fatal_fields_soft pageAllFail fieldsAllWork sampleReceipt
      true).2 []).1⟩

/-- Claim C3 counterexample: with an environment that provides neither the
username nor the password key, SmokeBallReceiptAutomation.__init__
succeeds and substitutes the hardcoded defaults of lines 51-52, and the
login step then submits exactly those default credentials — so startup is
not a fatal configuration error and a session does proceed to login with
credentials that were never explicitly configured. -/
theorem missing_credentials_fall_back_to_defaults :
    emptyEnv.smokeballUsername = none ∧ emptyEnv.smokeballPassword = none ∧
    loadCredentials emptyEnv =
      { username := defaultUsername, password := defaultPassword,
        two_factor_secret := none } ∧
    LoginEvent.filledUsername defaultUsername ∈
      (login (loadCredentials emptyEnv) true loginPageDirect 0 []).1 := by
  refine ⟨rfl, rfl, rfl, ?_⟩
  decide

/-- Claim C3 amended: if the environment does not provide the
SMOKEBALL_USERNAME / SMOKEBALL_PASSWORD keys, startup does not fail;
the controller silently falls back to the hardcoded default credentials
and the session proceeds with them. -/
theorem loadCredentials_missing_env_defaults (env : Env)
    (hu : env.smokeballUsername = none) (hp : env.smokeballPassword = none) :
    loadCredentials env =
      { username := defaultUsername, password := defaultPassword,
        two_factor_secret := env.smokeball2faSecret } := by
  unfold loadCredentials
  rw [hu, hp]
  rfl

/-- Claim C3 amended witness at the concrete empty environment. -/
theorem loadCredentials_missing_env_defaults_witness :
    loadCredentials emptyEnv =
      { username := defaultUsername, password := defaultPassword,
        two_factor_secret := emptyEnv.smokeball2faSecret } :=
  loadCredentials_missing_env_defaults emptyEnv rfl rfl

/-- Claim C4: for every valid non-empty base32 secret the TOTP generation
returns a 6-digit numeric string, and two calls whose times fall in the
same 30-second window return the same code — the code is a function of
the secret and the window index t / 30 only. -/
theorem generate_totp_code_valid_secret (s : String) (t1 t2 : Nat)
    (hv : isValidBase32 s = true) (hw : t1 / 30 = t2 / 30) :
    ∃ code, generate_totp_code (some s) true t1 = Except.ok code ∧
      generate_totp_code (some s) true t2 = Except.ok code ∧
      code.length = 6 ∧ code.data.all Char.isDigit = true := by
  have hne : s.isEmpty = false := by
    cases h : s.isEmpty
    · rfl
    · unfold isValidBase32 at hv
      rw [h] at hv
      simp at hv
  have hkey : base32Decode s =
      some (toBytesBE (5 * s.length / 8) (base32Bits s / 2 ^ (5 * s.length % 8))) := by
    unfold base32Decode
    rw [hv]
    rfl
  have hgen : ∀ t, generate_totp_code (some s) true t =
      Except.ok (sixDigitString (hotp
        (toBytesBE (5 * s.length / 8) (base32Bits s / 2 ^ (5 * s.length % 8))) (t / 30))) := by
    intro t
    simp [generate_totp_code, hne, hkey]
  refine ⟨_, hgen t1, ?_, sixDigitString_length _, sixDigitString_digits _⟩
  rw [hgen t2, hw]

/-- Claim C4 witness: a concrete valid secret, with 59 and 45 seconds in
the same 30-second window. -/
theorem generate_totp_code_valid_secret_witness :
    isValidBase32 sampleSecret = true ∧
    (∃ code, generate_totp_code (some sampleSecret) true 59 = Except.ok code ∧
      generate_totp_code (some sampleSecret) true 45 = Except.ok code ∧
      code.length = 6 ∧ code.data.all Char.isDigit = true) :=
  ⟨by decide, generate_totp_code_valid_secret sampleSecret 59 45 (by decide) rfl⟩

/-- Claim C5: for every malformed (empty or non-base32) secret, TOTP
generation fails with an error before any code is produced; the embedded
computation is a pure function, with no network call or other effect. -/
theorem generate_totp_code_malformed (s : String) (pa : Bool) (t : Nat)
    (hm : isValidBase32 s = false) :
    ∃ e, generate_totp_code (some s) pa t = Except.error e := by
  have hd : base32Decode s = none := by
    unfold base32Decode
    rw [hm]
    rfl
  cases he : s.isEmpty
  · cases pa
    · exact ⟨TotpFailure.secretNotConfigured, by simp [generate_totp_code, he]⟩
    · exact ⟨TotpFailure.invalidBase32, by simp [generate_totp_code, he, hd]⟩
  · exact ⟨TotpFailure.secretNotConfigured, by simp [generate_totp_code, he]⟩

/-- Claim C5 witness at a concrete malformed secret. -/
theorem generate_totp_code_malformed_witness :
    isValidBase32 badSecret = false ∧
    ∃ e, generate_totp_code (some badSecret) true 59 = Except.error e :=
  ⟨by decide, generate_totp_code_malformed badSecret true 59 (by decide)⟩

/-- Claim C8: when no usable TOTP secret is configured (absent or empty
secret, or pyotp unavailable) and the post-login page requires two-factor
authentication, login enters the two-factor flow and suspends on the
interactive manual-code prompt — it does not generate a code and does not
fail before prompting; with a correct manual code the login completes. -/
theorem login_missing_totp_prompts_manual (creds : Credentials) (pa : Bool)
    (pg : LoginPage) (t : Nat)
    (hu : usableSecret creds.two_factor_secret pa = false)
    (hf : pg.credentialFormWorks = true)
    (hd : pg.dashboardAfterLogin = false)
    (h2 : pg.twoFactorFieldAppears = true) :
    LoginEvent.enteredTwoFactorFlow ∈ (login creds pa pg t []).1 ∧
    LoginEvent.promptedManualCode ∈ (login creds pa pg t []).1 ∧
    (∀ c, LoginEvent.generatedTotp c ∉ (login creds pa pg t []).1) ∧
    (pg.verifySucceeds = true → (login creds pa pg t []).2 = Except.ok ()) := by
  cases hv : pg.verifySucceeds <;>
    simp [login, bnd, record, ret, raiseErr, hf, hd, h2, hu, hv]

/-- Claim C8 witness: concrete credentials without a secret, on a page
that requires 2FA and accepts the entered code. -/
theorem login_missing_totp_prompts_manual_witness :
    LoginEvent.promptedManualCode ∈ (login noSecretCreds true twoFactorPage 0 []).1 ∧
    (login noSecretCreds true twoFactorPage 0 []).2 = Except.ok () := by
  have h := login_missing_totp_prompts_manual noSecretCreds true twoFactorPage 0
    (by decide) (by decide) (by decide) (by decide)
  exact ⟨h.2.1, h.2.2.2 (by decide)⟩

theorem runAutomation_completed (sc : RunSetup) (tm : Bool) (s : Summary)
    (h : (runAutomation sc tm).termination = RunTermination.completed s) :
    s = runSummary sc tm := by
  unfold runAutomation at h
  cases hi : effectiveInterrupt sc tm <;> rw [hi] at h
  · simp at h
    exact h.symm
  · rename_i ip
    cases ip <;> simp at h

theorem runSummary_error_iff (sc : RunSetup) (tm : Bool) :
    (runSummary sc tm).error.isSome = !(runSummary sc tm).success := by
  unfold runSummary
  cases stageFailure sc tm <;> rfl

/-- Claim C9: whenever a run completes with a summary (both on success and
on failure), main prints that summary as the last output of the process,
the summary carries an error field exactly on failure, and the exit code
is 0 exactly on success; a run ended by user interruption exits 1. -/
theorem main_final_summary_and_exit_code (sc : RunSetup) (tm : Bool) :
    (∀ s, (runAutomation sc tm).termination = RunTermination.completed s →
       (mainProcess sc tm).lastOutput = ProcessOutput.finalResult s ∧
       s.error.isSome = !s.success ∧
       (mainProcess sc tm).exitCode = (if s.success then 0 else 1)) ∧
    ((runAutomation sc tm).termination = RunTermination.interrupted →
       (mainProcess sc tm).exitCode = 1) ∧
    ((mainProcess sc tm).exitCode = 0 ↔
       ∃ s, (runAutomation sc tm).termination = RunTermination.completed s ∧
         s.success = true) := by
  refine ⟨?_, ?_, ?_⟩
  · intro s hs
    have h1 : s = runSummary sc tm := runAutomation_completed sc tm s hs
    unfold mainProcess
    rw [hs]
    exact ⟨rfl, by rw [h1]; exact runSummary_error_iff sc tm, rfl⟩
  · intro hi
    unfold mainProcess
    rw [hi]
  · unfold mainProcess
    cases ht : (runAutomation sc tm).termination with
    | completed s =>
      cases hsucc : s.success
      · simp only [hsucc, if_false]
        constructor
        · intro h
          simp at h
        · rintro ⟨s2, he, hs2⟩
          rw [RunTermination.completed.injEq] at he
          subst he
          rw [hsucc] at hs2
          exact Bool.noConfusion hs2
      · simp only [hsucc, if_true, true_iff]
        exact ⟨s, rfl, hsucc⟩
    | interrupted =>
      constructor
      · intro h
        simp at h
      · rintro ⟨s2, he, hs2⟩
        exact RunTermination.noConfusion he

/-- Claim C9 witness: the all-stages-succeed test-mode run prints the
success summary last and exits 0. -/
theorem main_final_summary_and_exit_code_witness :
    (mainProcess setupAllOk true).lastOutput =
      ProcessOutput.finalResult ⟨true, msgFilledOk, none⟩ ∧
    (mainProcess setupAllOk true).exitCode = 0 := by
  have h := (main_final_summary_and_exit_code setupAllOk true).1
    ⟨true, msgFilledOk, none⟩ (by decide)
  exact ⟨h.1, by rw [h.2.2]; rfl⟩

/-- Claim C10 counterexample: in a non-test-mode run in which every stage
succeeded and the browser was acquired, a user interrupt arriving during
the 5-second sleep that the finally block performs before cleanup
(lines 562-564) ends the process with zero browser.close() calls — the
acquired browser is never released. -/
theorem interrupt_in_finally_sleep_skips_cleanup :
    (runAutomation setupLeak false).acquired = true ∧
    (runAutomation setupLeak false).closeCount = 0 := by
  decide

/-- Claim C10 amended: on every exit path of run — normal success, any
raised error, or a user interruption at any await point other than the
5-second pre-cleanup sleep of the finally block — the browser is closed
exactly once if it was acquired and never otherwise; an interruption
during that pre-cleanup sleep (possible only outside test mode) skips the
release. -/
theorem cleanup_exactly_once_amended (sc : RunSetup) (tm : Bool)
    (h : sc.interrupt = some InterruptPoint.duringFinallySleep → tm = true) :
    (runAutomation sc tm).closeCount =
      (if (runAutomation sc tm).acquired then 1 else 0) ∧
    (runAutomation sc tm).closeCount ≤ 1 := by
  cases hi : effectiveInterrupt sc tm with
  | none =>
    simp only [runAutomation, hi, cleanupCloseCount]
    cases sc.launchOk <;> simp
  | some ip =>
    cases ip
    case beforeBrowserLaunch =>
      simp [runAutomation, hi, cleanupCloseCount]
    case duringInit =>
      simp only [runAutomation, hi, cleanupCloseCount]
      cases sc.launchOk <;> simp
    case duringLogin =>
      simp only [runAutomation, hi, cleanupCloseCount]
      cases sc.launchOk <;> simp
    case duringNavigate =>
      simp only [runAutomation, hi, cleanupCloseCount]
      cases sc.launchOk <;> simp
    case duringFill =>
      simp only [runAutomation, hi, cleanupCloseCount]
      cases sc.launchOk <;> simp
    case duringFinallySleep =>
      exfalso
      unfold effectiveInterrupt at hi
      cases hsc : sc.interrupt with
      | none =>
        rw [hsc] at hi
        exact Option.noConfusion hi
      | some ip0 =>
        rw [hsc] at hi
        simp at hi
        obtain ⟨hr, hip⟩ := hi
        subst hip
        have htm : tm = true := h (by rw [hsc])
        rw [htm] at hr
        simp [interruptReached] at hr

/-- Claim C10 amended witness: a concrete uninterrupted run closes the
acquired browser exactly once. -/
theorem cleanup_exactly_once_amended_witness :
    (runAutomation setupAllOk true).closeCount =
      (if (runAutomation setupAllOk true).acquired then 1 else 0) ∧
    (runAutomation setupAllOk true).closeCount ≤ 1 :=
  cleanup_exactly_once_amended setupAllOk true (fun hc => Option.noConfusion hc)
